import Mathlib

/-!
Verification development for the PyHealthKit pipeline (`src/parse_xml.py`).

The pandas data frame is embedded as a list of column names plus a list of
rows, each row a list of cells.  A cell is either a string, a parsed
datetime, or a missing value (pandas `NaN`/`NaT`).  Python exceptions are
embedded as an `Except` error type.  The pandas primitives used by the
source (`Series.str.contains`, `Series.str.replace`, boolean-mask `.loc`
indexing, index-aligned column assignment `df.loc[:, c] = series`,
list-label column selection, `pd.to_datetime`, `drop(columns=...)`,
`to_csv`) are embedded at the level of the semantics the source relies on.
-/

set_option autoImplicit false

namespace PyHealthKit

/-- A single cell of a data frame: a string value, a parsed datetime value
(carrying the original text), or a missing value (`NaN` / `NaT`). -/
inductive Cell where
  | str : String → Cell
  | dt : String → Cell
  | na : Cell
deriving DecidableEq, Repr

/-- The Python exceptions the pipeline can raise: `ValueError` (invalid
category, masking with NA), a date-parsing failure from `pd.to_datetime`,
and `KeyError` (missing column; the spec's `SchemaError`). -/
inductive PyError where
  | valueError : String → PyError
  | parserError : String → PyError
  | keyError : String → PyError
deriving DecidableEq, Repr

/-- A pandas data frame with its default `RangeIndex`: named columns and a
list of rows (row `i` carries index label `i`). -/
structure DataFrame where
  cols : List String
  rows : List (List Cell)
deriving DecidableEq, Repr

/-- Index of the first column with the given name (`df.columns.get_loc`). -/
def idxOf? (c : String) : List String → Option Nat
  | [] => none
  | n :: ns => if n = c then some 0 else (idxOf? c ns).map (· + 1)

/-- The cell of a row under a given column name (first occurrence). -/
def rowLookup : List String → List Cell → String → Option Cell
  | n :: ns, x :: xs, c => if n = c then some x else rowLookup ns xs c
  | _, _, _ => none

/-- Substring test on character lists: the Python `pattern in s` /
`Series.str.contains` semantics (the patterns used contain no regex
metacharacters). -/
def hasSubAux (p : List Char) : List Char → Bool
  | [] => decide (p = [])
  | c :: cs => p.isPrefixOf (c :: cs) || hasSubAux p cs

/-- `containsSub s pat` holds when `pat` occurs as a contiguous substring
of `s`. -/
def containsSub (s pat : String) : Bool :=
  hasSubAux pat.toList s.toList

/-- Replace every occurrence of `p` in the list, left to right and
non-overlapping, by `r` — the semantics of Python `str.replace` and of
`Series.str.replace` on a literal pattern.  `fuel` bounds the recursion
and is instantiated with the length of the scanned list. -/
def replaceAllAux (p r : List Char) : Nat → List Char → List Char
  | 0, s => s
  | _ + 1, [] => []
  | fuel + 1, c :: cs =>
    if p ≠ [] ∧ p.isPrefixOf (c :: cs) then
      r ++ replaceAllAux p r fuel ((c :: cs).drop p.length)
    else
      c :: replaceAllAux p r fuel cs

/-- Replace every occurrence of `pat` in `s` by `rep`. -/
def replaceAll (s pat rep : String) : String :=
  String.mk (replaceAllAux pat.toList rep.toList s.toList.length s.toList)

/-- `Series.str.contains` on one cell of an object column: a boolean for a
string cell, `NaN` (`none`) for a non-string cell. -/
def strContains (pat : String) : Cell → Option Bool
  | Cell.str s => some (containsSub s pat)
  | _ => none

/-- The matched `(index label, value)` pairs of a string column filtered by
a substring pattern, in row order, starting at index label `i` — the
result of `records.loc[mask, "type"]` once the mask is known NA-free. -/
def maskFilter (pat : String) : Nat → List Cell → List (Nat × String)
  | _, [] => []
  | i, Cell.str s :: cs =>
    if containsSub s pat then (i, s) :: maskFilter pat (i + 1) cs
    else maskFilter pat (i + 1) cs
  | i, _ :: cs => maskFilter pat (i + 1) cs

/-- The error message of the category validation in `extract_record_types`
and `clean_record_types`. -/
def invalidCategoryError : PyError :=
  PyError.valueError "Unknown type of record"

/-- `get_filtered_record_types(records, type_of_record)`: select the
`type` column values containing the substring
`HK<type_of_record>TypeIdentifier`.  The result keeps the pandas index
labels of the matched rows.  Missing `type` column raises `KeyError`; a
missing value in the `type` column makes the mask contain NA, and boolean
`.loc` indexing with an NA mask raises `ValueError`. -/
def get_filtered_record_types (records : DataFrame) (type_of_record : String) :
    Except PyError (List (Nat × String)) :=
  match idxOf? "type" records.cols with
  | none => Except.error (PyError.keyError "type")
  | some j =>
    let pat := "HK" ++ type_of_record ++ "TypeIdentifier"
    let col := records.rows.map (fun r => r.getD j Cell.na)
    if col.all (fun cell => (strContains pat cell).isSome) then
      Except.ok (maskFilter pat 0 col)
    else
      Except.error
        (PyError.valueError "cannot mask with non-boolean array containing NA")

/-- `extract_record_types(records, type_of_record)`: validate the
category, filter, then strip every occurrence of the identifier substring
from each matched value (`Series.str.replace`), returning the values
(`.values` drops the index labels). -/
def extract_record_types (records : DataFrame) (type_of_record : String) :
    Except PyError (List String) :=
  if type_of_record ∈ ["Quantity", "Category"] then
    match get_filtered_record_types records type_of_record with
    | Except.error e => Except.error e
    | Except.ok filtered =>
      Except.ok
        (filtered.map (fun p =>
          replaceAll p.2 ("HK" ++ type_of_record ++ "TypeIdentifier") ""))
  else Except.error invalidCategoryError

/-- Write cell `f i` into position `j` of each row, where `i` is the row's
index label (counted from the first argument). -/
def setCells (j : Nat) (f : Nat → Cell) : Nat → List (List Cell) → List (List Cell)
  | _, [] => []
  | i, r :: rs => r.set j (f i) :: setCells j f (i + 1) rs

/-- `clean_record_types(records, type_of_record)`: validate the category,
filter, strip the identifier substring from the matched values, then
assign the resulting series to the whole `type` column
(`records.loc[:, "type"] = record_types`).  The assignment aligns on the
index: a row whose label is absent from the series receives `NaN`. -/
def clean_record_types (records : DataFrame) (type_of_record : String) :
    Except PyError DataFrame :=
  if type_of_record ∈ ["Quantity", "Category"] then
    match get_filtered_record_types records type_of_record with
    | Except.error e => Except.error e
    | Except.ok filtered =>
      match idxOf? "type" records.cols with
      | none => Except.error (PyError.keyError "type")
      | some j =>
        Except.ok
          ⟨records.cols,
            setCells j
              (fun i =>
                match (filtered.map (fun p =>
                    (p.1, replaceAll p.2
                      ("HK" ++ type_of_record ++ "TypeIdentifier") ""))).lookup i with
                | some v => Cell.str v
                | none => Cell.na)
              0 records.rows⟩
  else Except.error invalidCategoryError

/-! ### The XML parser / tabular assembler -/

/-- A well-formed XML document is abstracted to the list of its `Record`
elements in document order, each element its attribute mapping. -/
abbrev RecordList := List (List (String × String))

/-- The columns of `pd.DataFrame(record_list)`: the union of the attribute
names, in order of first appearance. -/
def unionKeys (record_list : RecordList) : List String :=
  record_list.foldl
    (fun acc r => r.foldl (fun a kv => if kv.1 ∈ a then a else a ++ [kv.1]) acc)
    []

/-- The cell of one assembled row under column `c`: the record's attribute
value, or `NaN` when the record lacks the attribute. -/
def cellOfRecord (r : List (String × String)) (c : String) : Cell :=
  match r.lookup c with
  | some v => Cell.str v
  | none => Cell.na

/-- `pd.DataFrame(record_list)`: one row per record in order, one column
per observed attribute name. -/
def rawTable (record_list : RecordList) : DataFrame :=
  ⟨unionKeys record_list,
    record_list.map (fun r => (unionKeys record_list).map (cellOfRecord r))⟩

/-- Model of the `pd.to_datetime` string parser on the values of this
pipeline: a string parses as a date/time when it is nonempty, starts with
a digit, and consists of digits and the delimiters of the HealthKit export
format (`-`, `:`, space, `+`). -/
def canParseDatetime (s : String) : Bool :=
  !s.toList.isEmpty
    && s.toList.all (fun c => c.isDigit || c = '-' || c = ':' || c = ' ' || c = '+')
    && (s.toList.headD '-').isDigit

/-- `pd.to_datetime` on one cell: `NaN` becomes `NaT` (kept as the missing
cell), a parseable string becomes a datetime cell, an unparseable string
is a failure (`none`). -/
def toDatetimeCell? : Cell → Option Cell
  | Cell.na => some Cell.na
  | Cell.dt s => some (Cell.dt s)
  | Cell.str s => if canParseDatetime s then some (Cell.dt s) else none

/-- Whether every value of column `c` converts under `pd.to_datetime`
(`false` when the column is absent). -/
def colAllParse (df : DataFrame) (c : String) : Bool :=
  match idxOf? c df.cols with
  | none => false
  | some j => df.rows.all (fun r => (toDatetimeCell? (r.getD j Cell.na)).isSome)

/-- Convert column `c` of the frame with `pd.to_datetime`, failing when
any value of the column fails to parse (`errors="raise"`), with a
`KeyError` when the column is absent. -/
def convertDateCol (df : DataFrame) (c : String) : Except PyError DataFrame :=
  match idxOf? c df.cols with
  | none => Except.error (PyError.keyError c)
  | some j =>
    if df.rows.all (fun r => (toDatetimeCell? (r.getD j Cell.na)).isSome) then
      Except.ok
        ⟨df.cols,
          df.rows.map (fun r =>
            r.set j ((toDatetimeCell? (r.getD j Cell.na)).getD Cell.na))⟩
    else Except.error (PyError.parserError c)

/-- The three date columns converted by `parse_health_data`. -/
def dateColsList : List String := ["creationDate", "startDate", "endDate"]

/-- `parse_health_data(xml_path)`: assemble the frame from the `Record`
elements, then convert the three date columns
(`records[date_cols] = records[date_cols].apply(pd.to_datetime)`).
Selecting `records[date_cols]` raises `KeyError` when any of the three
labels is absent from the columns (so in particular on an empty record
list, whose frame has no columns at all). -/
def parse_health_data (record_list : RecordList) : Except PyError DataFrame :=
  if "creationDate" ∈ unionKeys record_list ∧ "startDate" ∈ unionKeys record_list ∧
      "endDate" ∈ unionKeys record_list then
    match convertDateCol (rawTable record_list) "creationDate" with
    | Except.error e => Except.error e
    | Except.ok r1 =>
      match convertDateCol r1 "startDate" with
      | Except.error e => Except.error e
      | Except.ok r2 => convertDateCol r2 "endDate"
  else Except.error (PyError.keyError "date columns missing")

/-! ### The orchestrator -/

/-- Remove the cells whose column name is `c` from a row. -/
def dropCells : List String → List Cell → String → List Cell
  | n :: ns, x :: xs, c =>
    if n = c then dropCells ns xs c else x :: dropCells ns xs c
  | _, _, _ => []

/-- Remove every column named `c` from the column list. -/
def removeName : List String → String → List String
  | [], _ => []
  | n :: ns, c => if n = c then removeName ns c else n :: removeName ns c

/-- `records.drop(columns=c)`: remove the named column, raising `KeyError`
when it is absent. -/
def dropColumn (df : DataFrame) (c : String) : Except PyError DataFrame :=
  if c ∈ df.cols then
    Except.ok
      ⟨removeName df.cols c, df.rows.map (fun r => dropCells df.cols r c)⟩
  else Except.error (PyError.keyError c)

/-- `process_health_records(xml_path, save_path)`: parse, extract and log
both categories' type names, clean the `type` column for the `Quantity`
category, drop the `device` column, and serialize.  The returned frame is
the one `to_csv` writes; an error means no output file is produced. -/
def process_health_records (record_list : RecordList) : Except PyError DataFrame :=
  match parse_health_data record_list with
  | Except.error e => Except.error e
  | Except.ok records =>
    match extract_record_types records "Quantity" with
    | Except.error e => Except.error e
    | Except.ok _quantity_types =>
      match extract_record_types records "Category" with
      | Except.error e => Except.error e
      | Except.ok _category_types =>
        match clean_record_types records "Quantity" with
        | Except.error e => Except.error e
        | Except.ok records2 => dropColumn records2 "device"

/-- The serialized form of a frame: a header and one line per row carrying
the integer row index (`to_csv` writes the default `RangeIndex` as a
leading column). -/
structure Csv where
  header : List String
  lines : List (Nat × List String)
deriving DecidableEq, Repr

/-- A cell as written by `to_csv` (missing values serialize as empty). -/
def cellToCsv : Cell → String
  | Cell.str s => s
  | Cell.dt s => s
  | Cell.na => ""

/-- The serialized lines of the rows, with their integer row indices. -/
def csvLines : Nat → List (List Cell) → List (Nat × List String)
  | _, [] => []
  | i, r :: rs => (i, r.map cellToCsv) :: csvLines (i + 1) rs

/-- `df.to_csv(save_path)`. -/
def to_csv (df : DataFrame) : Csv :=
  ⟨df.cols, csvLines 0 df.rows⟩

/-! ### Statement vocabulary -/

/-- The `(index, value)` pairs of the values containing the pattern, in
row order — the specification-level description of the filter of 4.2. -/
def matchedPairs (pat : String) : Nat → List String → List (Nat × String)
  | _, [] => []
  | i, s :: ss =>
    if containsSub s pat then (i, s) :: matchedPairs pat (i + 1) ss
    else matchedPairs pat (i + 1) ss

/-- A cell holding a parsed datetime value or a missing value (`NaT`),
i.e. anything but a raw string. -/
def datetimeLike : Cell → Bool
  | Cell.str _ => false
  | _ => true

/-- Whether every date value of the assembled frame converts under
`pd.to_datetime`. -/
def allDatesParse (record_list : RecordList) : Bool :=
  colAllParse (rawTable record_list) "creationDate"
    && colAllParse (rawTable record_list) "startDate"
    && colAllParse (rawTable record_list) "endDate"

/-- Every row has exactly one cell per column. -/
def WellFormed (df : DataFrame) : Prop :=
  ∀ r ∈ df.rows, r.length = df.cols.length

/-- The spec's words for 4.3a: strip the literal identifier from the front
of the value, once. -/
def stripFrontSpec (pref s : String) : String :=
  if pref.toList.isPrefixOf s.toList then
    String.mk (s.toList.drop pref.toList.length)
  else s

/-! ### Basic lemmas about column indexing and row lookup -/

theorem idxOf?_getElem? {c : String} : ∀ {ns : List String} {j : Nat},
    idxOf? c ns = some j → ns[j]? = some c := by
  intro ns
  induction ns with
  | nil => intro j h; simp [idxOf?] at h
  | cons n ns ih =>
    intro j h
    by_cases hn : n = c
    · simp only [idxOf?, if_pos hn] at h
      cases h
      simp [hn]
    · simp only [idxOf?, if_neg hn, Option.map_eq_some'] at h
      obtain ⟨j', hj', rfl⟩ := h
      simpa using ih hj'

theorem idxOf?_eq_none {c : String} : ∀ {ns : List String},
    idxOf? c ns = none ↔ c ∉ ns := by
  intro ns
  induction ns with
  | nil => simp [idxOf?]
  | cons n ns ih =>
    by_cases hn : n = c
    · simp [idxOf?, hn]
    · simp [idxOf?, hn, ih, Ne.symm hn]

theorem rowLookup_eq_getElem? {c : String} : ∀ {cols : List String} {j : Nat}
    (row : List Cell), idxOf? c cols = some j → rowLookup cols row c = row[j]? := by
  intro cols
  induction cols with
  | nil => intro j row h; simp [idxOf?] at h
  | cons n ns ih =>
    intro j row h
    by_cases hn : n = c
    · simp only [idxOf?, if_pos hn] at h
      cases h
      cases row with
      | nil => simp [rowLookup]
      | cons x xs => simp [rowLookup, hn]
    · simp only [idxOf?, if_neg hn, Option.map_eq_some'] at h
      obtain ⟨j', hj', rfl⟩ := h
      cases row with
      | nil => simp [rowLookup]
      | cons x xs => simpa [rowLookup, hn] using ih xs hj'

theorem rowLookup_eq_none {c : String} : ∀ {cols : List String} (row : List Cell),
    idxOf? c cols = none → rowLookup cols row c = none := by
  intro cols
  induction cols with
  | nil => intro row _; cases row <;> simp [rowLookup]
  | cons n ns ih =>
    intro row h
    by_cases hn : n = c
    · simp [idxOf?, hn] at h
    · simp only [idxOf?, if_neg hn, Option.map_eq_none'] at h
      cases row with
      | nil => simp [rowLookup]
      | cons x xs => simpa [rowLookup, hn] using ih xs h

theorem rowLookup_map_self (g : String → Cell) {c : String} :
    ∀ {cols : List String}, c ∈ cols →
      rowLookup cols (cols.map g) c = some (g c) := by
  intro cols
  induction cols with
  | nil => intro h; simp at h
  | cons n ns ih =>
    intro h
    by_cases hn : n = c
    · subst hn; simp [rowLookup]
    · have hc : c ∈ ns := by
        rcases List.mem_cons.mp h with h' | h'
        · exact absurd h'.symm hn
        · exact h'
      simpa [rowLookup, hn] using ih hc

theorem rowLookup_set_ne {cols : List String} {row : List Cell} {j : Nat}
    {x : Cell} {c cn : String} (hj : cols[j]? = some cn) (hne : c ≠ cn) :
    rowLookup cols (row.set j x) c = rowLookup cols row c := by
  cases h : idxOf? c cols with
  | none => rw [rowLookup_eq_none _ h, rowLookup_eq_none _ h]
  | some j' =>
    rw [rowLookup_eq_getElem? _ h, rowLookup_eq_getElem? _ h]
    have hj' : cols[j']? = some c := idxOf?_getElem? h
    have hjj : j ≠ j' := by
      intro e
      rw [e, hj'] at hj
      exact hne (by cases hj; rfl)
    exact List.getElem?_set_ne hjj

theorem rowLookup_set_self {cols : List String} {row : List Cell} {j : Nat}
    {x : Cell} {c : String} (hj : idxOf? c cols = some j) (hlen : j < row.length) :
    rowLookup cols (row.set j x) c = some x := by
  rw [rowLookup_eq_getElem? _ hj]
  exact List.getElem?_set_eq_of_lt x hlen

/-! ### Lemmas about `setCells`, mapped rows and the filter -/

theorem setCells_length (j : Nat) (f : Nat → Cell) :
    ∀ (i : Nat) (rows : List (List Cell)),
      (setCells j f i rows).length = rows.length
  | _, [] => rfl
  | i, r :: rs => by simp [setCells, setCells_length j f (i + 1) rs]

theorem setCells_getElem? (j : Nat) (f : Nat → Cell) :
    ∀ (i k : Nat) (rows : List (List Cell)),
      (setCells j f i rows)[k]? = (rows[k]?).map (fun r => r.set j (f (i + k)))
  | _, _, [] => by simp [setCells]
  | i, 0, r :: rs => by simp [setCells]
  | i, k + 1, r :: rs => by
    simp only [setCells, List.getElem?_cons_succ]
    rw [setCells_getElem? j f (i + 1) k rs]
    have e : i + 1 + k = i + (k + 1) := by omega
    rw [e]

theorem setCells_getD (j : Nat) (f : Nat → Cell) (i k : Nat)
    (rows : List (List Cell)) :
    (setCells j f i rows).getD k [] = (rows.getD k []).set j (f (i + k)) := by
  rw [List.getD_eq_getElem?_getD, List.getD_eq_getElem?_getD, setCells_getElem?]
  cases rows[k]? <;> simp

theorem map_getD_nil (f : List Cell → List Cell) (hf : f [] = []) :
    ∀ (rows : List (List Cell)) (k : Nat),
      (rows.map f).getD k [] = f (rows.getD k [])
  | [], k => by simp [hf]
  | r :: rs, 0 => by simp
  | r :: rs, k + 1 => by simpa using map_getD_nil f hf rs k

theorem map_getD_of_lt {α β : Type} (f : α → β) (d : β) (d' : α) :
    ∀ (l : List α) (k : Nat), k < l.length → (l.map f).getD k d = f (l.getD k d')
  | [], k, h => absurd h (by simp)
  | a :: l, 0, _ => by simp
  | a :: l, k + 1, h => by simpa using map_getD_of_lt f d d' l k (by simpa using h)

theorem getD_mem_of_lt {α : Type} (l : List α) (k : Nat) (d : α)
    (h : k < l.length) : l.getD k d ∈ l := by
  rw [List.getD_eq_getElem?_getD, List.getElem?_eq_getElem h]
  exact List.getElem_mem h

theorem maskFilter_map_str (pat : String) :
    ∀ (i : Nat) (vals : List String),
      maskFilter pat i (vals.map Cell.str) = matchedPairs pat i vals
  | _, [] => rfl
  | i, s :: ss => by
    by_cases h : containsSub s pat <;>
      simp [maskFilter, matchedPairs, h, maskFilter_map_str pat (i + 1) ss]

theorem matchedPairs_map_snd (pat : String) :
    ∀ (i : Nat) (vals : List String),
      (matchedPairs pat i vals).map Prod.snd
        = vals.filter (fun s => containsSub s pat)
  | _, [] => rfl
  | i, s :: ss => by
    by_cases h : containsSub s pat <;>
      simp [matchedPairs, List.filter_cons, h, matchedPairs_map_snd pat (i + 1) ss]

/-- On a `type` column of string cells, the filter returns exactly the
matched `(index, value)` pairs, in row order. -/
theorem get_filtered_ok_of_strings (records : DataFrame) (t : String) (j : Nat)
    (vals : List String) (hj : idxOf? "type" records.cols = some j)
    (hvals : records.rows.map (fun r => r.getD j Cell.na) = vals.map Cell.str) :
    get_filtered_record_types records t =
      Except.ok (matchedPairs ("HK" ++ t ++ "TypeIdentifier") 0 vals) := by
  unfold get_filtered_record_types
  rw [hj]
  simp only [hvals]
  rw [if_pos]
  · rw [maskFilter_map_str]
  · simp [List.all_map, Function.comp, strContains]

theorem toDatetimeCell?_datetimeLike (x : Cell) :
    datetimeLike ((toDatetimeCell? x).getD Cell.na) = true := by
  cases x with
  | na => rfl
  | dt s => rfl
  | str s =>
    simp only [toDatetimeCell?]
    split <;> rfl

/-! ### Lemmas about the date-column conversion -/

theorem convertDateCol_ok (df : DataFrame) (c : String) (df' : DataFrame)
    (h : convertDateCol df c = Except.ok df') :
    ∃ j, idxOf? c df.cols = some j ∧
      df'.cols = df.cols ∧
      df'.rows = df.rows.map (fun r =>
        r.set j ((toDatetimeCell? (r.getD j Cell.na)).getD Cell.na)) ∧
      df.rows.all (fun r => (toDatetimeCell? (r.getD j Cell.na)).isSome) = true := by
  unfold convertDateCol at h
  split at h
  · cases h
  next j hj =>
    split at h
    next hall =>
      cases h
      exact ⟨j, hj, rfl, rfl, hall⟩
    next => cases h

theorem convertDateCol_cols {df df' : DataFrame} {c : String}
    (h : convertDateCol df c = Except.ok df') : df'.cols = df.cols := by
  obtain ⟨j, _, hc, _, _⟩ := convertDateCol_ok df c df' h
  exact hc

theorem convertDateCol_length {df df' : DataFrame} {c : String}
    (h : convertDateCol df c = Except.ok df') :
    df'.rows.length = df.rows.length := by
  obtain ⟨j, _, _, hr, _⟩ := convertDateCol_ok df c df' h
  rw [hr, List.length_map]

theorem convertDateCol_wf {df df' : DataFrame} {c : String}
    (h : convertDateCol df c = Except.ok df') (hwf : WellFormed df) :
    WellFormed df' := by
  obtain ⟨j, _, hc, hr, _⟩ := convertDateCol_ok df c df' h
  intro r hr'
  rw [hr] at hr'
  obtain ⟨r0, hr0, rfl⟩ := List.mem_map.mp hr'
  rw [hc, List.length_set]
  exact hwf r0 hr0

theorem convertDateCol_rowLookup_ne {df df' : DataFrame} {c c' : String}
    (h : convertDateCol df c = Except.ok df') (hne : c' ≠ c) (k : Nat) :
    rowLookup df'.cols (df'.rows.getD k []) c'
      = rowLookup df.cols (df.rows.getD k []) c' := by
  obtain ⟨j, hj, hc, hr, _⟩ := convertDateCol_ok df c df' h
  rw [hc, hr, map_getD_nil _ rfl]
  exact rowLookup_set_ne (idxOf?_getElem? hj) hne

theorem convertDateCol_rowLookup_self {df df' : DataFrame} {c : String}
    (h : convertDateCol df c = Except.ok df') (hwf : WellFormed df)
    (k : Nat) (hk : k < df.rows.length) :
    ∃ cell, rowLookup df'.cols (df'.rows.getD k []) c = some cell ∧
      datetimeLike cell = true := by
  obtain ⟨j, hj, hc, hr, _⟩ := convertDateCol_ok df c df' h
  rw [hc, hr, map_getD_nil _ rfl]
  have hjlt : j < df.cols.length := by
    have := idxOf?_getElem? hj
    exact (List.getElem?_eq_some.mp this).1
  have hrowlen : (df.rows.getD k []).length = df.cols.length :=
    hwf _ (getD_mem_of_lt df.rows k [] hk)
  refine ⟨_, rowLookup_set_self hj (by omega), toDatetimeCell?_datetimeLike _⟩

theorem all_congr' {α : Type} {l : List α} {p q : α → Bool}
    (h : ∀ a ∈ l, p a = q a) : l.all p = l.all q := by
  induction l with
  | nil => rfl
  | cons a l ih =>
    simp only [List.all_cons, h a (by simp),
      ih (fun b hb => h b (by simp [hb]))]

theorem colAllParse_some {df : DataFrame} {c : String} {j : Nat}
    (hj : idxOf? c df.cols = some j) :
    colAllParse df c
      = df.rows.all (fun r => (toDatetimeCell? (r.getD j Cell.na)).isSome) := by
  unfold colAllParse
  rw [hj]

theorem colAllParse_none {df : DataFrame} {c : String}
    (hj : idxOf? c df.cols = none) : colAllParse df c = false := by
  unfold colAllParse
  rw [hj]

theorem convertDateCol_colAllParse_ne {df df' : DataFrame} {c c' : String}
    (h : convertDateCol df c = Except.ok df') (hne : c' ≠ c) :
    colAllParse df' c' = colAllParse df c' := by
  obtain ⟨j, hj, hc, hr, _⟩ := convertDateCol_ok df c df' h
  cases hj' : idxOf? c' df.cols with
  | none =>
    rw [colAllParse_none hj', colAllParse_none (by rw [hc]; exact hj')]
  | some j' =>
    rw [colAllParse_some hj', @colAllParse_some df' c' j' (by rw [hc]; exact hj')]
    have hjj : j ≠ j' := by
      intro e
      have h1 := idxOf?_getElem? hj
      have h2 := idxOf?_getElem? hj'
      rw [e, h2] at h1
      exact hne (by cases h1; rfl)
    rw [hr]
    simp only [List.all_map]
    apply all_congr'
    intro r _
    have hset : (r.set j ((toDatetimeCell? (r.getD j Cell.na)).getD Cell.na)).getD
        j' Cell.na = r.getD j' Cell.na := by
      simp [List.getD_eq_getElem?_getD, List.getElem?_set_ne hjj]
    simp only [Function.comp_apply]
    rw [hset]

theorem convertDateCol_ok_colAllParse {df df' : DataFrame} {c : String}
    (h : convertDateCol df c = Except.ok df') : colAllParse df c = true := by
  obtain ⟨j, hj, _, _, hall⟩ := convertDateCol_ok df c df' h
  rw [colAllParse_some hj]
  exact hall

theorem convertDateCol_ok_of_colAllParse {df : DataFrame} {c : String}
    (h : colAllParse df c = true) :
    ∃ df', convertDateCol df c = Except.ok df' := by
  cases hj : idxOf? c df.cols with
  | none => rw [colAllParse_none hj] at h; cases h
  | some j =>
    rw [colAllParse_some hj] at h
    exact ⟨⟨df.cols, df.rows.map (fun r =>
        r.set j ((toDatetimeCell? (r.getD j Cell.na)).getD Cell.na))⟩,
      by unfold convertDateCol; simp only [hj, if_pos h]⟩

/-! ### Lemmas about the assembled frame and `parse_health_data` -/

theorem rawTable_cols (rl : RecordList) : (rawTable rl).cols = unionKeys rl := rfl

theorem rawTable_length (rl : RecordList) :
    (rawTable rl).rows.length = rl.length := by
  simp [rawTable]

theorem rawTable_row (rl : RecordList) (k : Nat) (hk : k < rl.length) :
    (rawTable rl).rows.getD k []
      = (unionKeys rl).map (cellOfRecord (rl.getD k [])) := by
  show (rl.map (fun r => (unionKeys rl).map (cellOfRecord r))).getD k [] = _
  rw [map_getD_of_lt _ [] [] rl k hk]

theorem rawTable_wf (rl : RecordList) : WellFormed (rawTable rl) := by
  intro r hr
  obtain ⟨r0, _, rfl⟩ := List.mem_map.mp hr
  simp [rawTable]

/-- Destructuring a successful parse into its three conversion steps. -/
theorem parse_ok {rl : RecordList} {df : DataFrame}
    (h : parse_health_data rl = Except.ok df) :
    ("creationDate" ∈ unionKeys rl ∧ "startDate" ∈ unionKeys rl ∧
      "endDate" ∈ unionKeys rl) ∧
    ∃ r1 r2, convertDateCol (rawTable rl) "creationDate" = Except.ok r1 ∧
      convertDateCol r1 "startDate" = Except.ok r2 ∧
      convertDateCol r2 "endDate" = Except.ok df := by
  unfold parse_health_data at h
  split at h
  next hpres =>
    split at h
    · cases h
    next r1 h1 =>
      split at h
      · cases h
      next r2 h2 => exact ⟨hpres, r1, r2, h1, h2, h⟩
  next => cases h

/-- A successful parse fails nothing: every date value of the input
converts. -/
theorem parse_ok_allDatesParse {rl : RecordList} {df : DataFrame}
    (h : parse_health_data rl = Except.ok df) : allDatesParse rl = true := by
  obtain ⟨_, r1, r2, h1, h2, h3⟩ := parse_ok h
  have e1 : colAllParse (rawTable rl) "creationDate" = true :=
    convertDateCol_ok_colAllParse h1
  have e2 : colAllParse (rawTable rl) "startDate" = true := by
    rw [← convertDateCol_colAllParse_ne h1 (by decide)]
    exact convertDateCol_ok_colAllParse h2
  have e3 : colAllParse (rawTable rl) "endDate" = true := by
    rw [← convertDateCol_colAllParse_ne h1 (by decide),
      ← convertDateCol_colAllParse_ne h2 (by decide)]
    exact convertDateCol_ok_colAllParse h3
  simp [allDatesParse, e1, e2, e3]

/-- When the three date columns are present and every date value
converts, the parse succeeds. -/
theorem parse_ok_of_allDatesParse {rl : RecordList}
    (hc : "creationDate" ∈ unionKeys rl) (hs : "startDate" ∈ unionKeys rl)
    (he : "endDate" ∈ unionKeys rl) (hall : allDatesParse rl = true) :
    ∃ df, parse_health_data rl = Except.ok df := by
  unfold allDatesParse at hall
  rw [Bool.and_eq_true, Bool.and_eq_true] at hall
  obtain ⟨⟨a1, a2⟩, a3⟩ := hall
  obtain ⟨r1, h1⟩ := convertDateCol_ok_of_colAllParse a1
  have a2' : colAllParse r1 "startDate" = true := by
    rw [convertDateCol_colAllParse_ne h1 (by decide)]
    exact a2
  obtain ⟨r2, h2⟩ := convertDateCol_ok_of_colAllParse a2'
  have a3' : colAllParse r2 "endDate" = true := by
    rw [convertDateCol_colAllParse_ne h2 (by decide),
      convertDateCol_colAllParse_ne h1 (by decide)]
    exact a3
  obtain ⟨r3, h3⟩ := convertDateCol_ok_of_colAllParse a3'
  refine ⟨r3, ?_⟩
  unfold parse_health_data
  rw [if_pos ⟨hc, hs, he⟩]
  simp only [h1, h2]
  exact h3

/-- The full shape of a successfully parsed frame: the observed columns,
one row per record in document order, non-date cells passed through
unchanged, date cells converted to datetime values. -/
theorem parse_ok_spec {rl : RecordList} {df : DataFrame}
    (h : parse_health_data rl = Except.ok df) :
    df.cols = unionKeys rl ∧
    df.rows.length = rl.length ∧
    (∀ k, k < rl.length → ∀ c, c ∈ unionKeys rl → c ∉ dateColsList →
      rowLookup df.cols (df.rows.getD k []) c
        = some (cellOfRecord (rl.getD k []) c)) ∧
    (∀ k, k < rl.length → ∀ c, c ∈ dateColsList →
      ∃ cell, rowLookup df.cols (df.rows.getD k []) c = some cell ∧
        datetimeLike cell = true) := by
  obtain ⟨⟨hc1, hc2, hc3⟩, r1, r2, h1, h2, h3⟩ := parse_ok h
  have cols1 := convertDateCol_cols h1
  have cols2 := convertDateCol_cols h2
  have cols3 := convertDateCol_cols h3
  have len1 := convertDateCol_length h1
  have len2 := convertDateCol_length h2
  have len3 := convertDateCol_length h3
  have wf0 := rawTable_wf rl
  have wf1 := convertDateCol_wf h1 wf0
  have wf2 := convertDateCol_wf h2 wf1
  have hlen : df.rows.length = rl.length := by
    rw [len3, len2, len1, rawTable_length]
  refine ⟨by rw [cols3, cols2, cols1, rawTable_cols], hlen, ?_, ?_⟩
  · intro k hk c hmem hnd
    have hd1 : c ≠ "creationDate" := by
      intro e; exact hnd (by rw [e]; simp [dateColsList])
    have hd2 : c ≠ "startDate" := by
      intro e; exact hnd (by rw [e]; simp [dateColsList])
    have hd3 : c ≠ "endDate" := by
      intro e; exact hnd (by rw [e]; simp [dateColsList])
    rw [convertDateCol_rowLookup_ne h3 hd3, convertDateCol_rowLookup_ne h2 hd2,
      convertDateCol_rowLookup_ne h1 hd1, rawTable_cols, rawTable_row rl k hk]
    exact rowLookup_map_self _ hmem
  · intro k hk c hmem
    have hk0 : k < (rawTable rl).rows.length := by rw [rawTable_length]; exact hk
    have hk1 : k < r1.rows.length := by rw [len1]; exact hk0
    have hk2 : k < r2.rows.length := by rw [len2]; exact hk1
    simp only [dateColsList, List.mem_cons, List.mem_singleton] at hmem
    rcases hmem with rfl | rfl | hmem
    · obtain ⟨cell, hcell, hdt⟩ := convertDateCol_rowLookup_self h1 wf0 k hk0
      refine ⟨cell, ?_, hdt⟩
      rw [convertDateCol_rowLookup_ne h3 (by decide),
        convertDateCol_rowLookup_ne h2 (by decide)]
      exact hcell
    · obtain ⟨cell, hcell, hdt⟩ := convertDateCol_rowLookup_self h2 wf1 k hk1
      refine ⟨cell, ?_, hdt⟩
      rw [convertDateCol_rowLookup_ne h3 (by decide)]
      exact hcell
    · rcases hmem with rfl | hmem
      · exact convertDateCol_rowLookup_self h3 wf2 k hk2
      · simp at hmem

/-! ### Lemmas about `clean_record_types` -/

/-- Destructuring a successful clean into its filter result and the
index-aligned assignment to the `type` column. -/
theorem clean_ok {records : DataFrame} {t : String} {df' : DataFrame}
    (h : clean_record_types records t = Except.ok df') :
    ∃ filtered j, get_filtered_record_types records t = Except.ok filtered ∧
      idxOf? "type" records.cols = some j ∧
      df' = ⟨records.cols,
        setCells j
          (fun i =>
            match (filtered.map (fun p =>
                (p.1, replaceAll p.2 ("HK" ++ t ++ "TypeIdentifier") ""))).lookup i with
            | some v => Cell.str v
            | none => Cell.na)
          0 records.rows⟩ := by
  unfold clean_record_types at h
  split at h
  · split at h
    · cases h
    next filtered hf =>
      split at h
      · cases h
      next j hj =>
        cases h
        exact ⟨filtered, j, hf, hj, rfl⟩
  · cases h

/-- A successful clean keeps the columns, the row count and order, and
every cell outside the `type` column. -/
theorem clean_ok_spec {records : DataFrame} {t : String} {df' : DataFrame}
    (h : clean_record_types records t = Except.ok df') :
    df'.cols = records.cols ∧ df'.rows.length = records.rows.length ∧
    ∀ c, c ≠ "type" → ∀ k,
      rowLookup df'.cols (df'.rows.getD k []) c
        = rowLookup records.cols (records.rows.getD k []) c := by
  obtain ⟨filtered, j, hf, hj, rfl⟩ := clean_ok h
  refine ⟨rfl, setCells_length j _ 0 records.rows, ?_⟩
  intro c hc k
  show rowLookup records.cols ((setCells j _ 0 records.rows).getD k []) c = _
  rw [setCells_getD]
  exact rowLookup_set_ne (idxOf?_getElem? hj) hc

/-! ### Lemmas about the column drop -/

theorem rowLookup_nil (cols : List String) (c : String) :
    rowLookup cols [] c = none := by cases cols <;> rfl

theorem dropCells_rowLookup {c c' : String} (hne : c' ≠ c) :
    ∀ (cols : List String) (row : List Cell),
      rowLookup (removeName cols c) (dropCells cols row c) c'
        = rowLookup cols row c'
  | [], row => by cases row <;> rfl
  | n :: ns, [] => by
    show rowLookup (removeName (n :: ns) c) [] c' = rowLookup (n :: ns) [] c'
    rw [rowLookup_nil, rowLookup_nil]
  | n :: ns, x :: xs => by
    by_cases hn : n = c
    · have hnc' : ¬ n = c' := fun e => hne (by rw [← e, hn])
      rw [show removeName (n :: ns) c = removeName ns c by
          simp [removeName, hn],
        show dropCells (n :: ns) (x :: xs) c = dropCells ns xs c by
          simp [dropCells, hn],
        dropCells_rowLookup hne ns xs,
        show rowLookup (n :: ns) (x :: xs) c' = rowLookup ns xs c' by
          simp [rowLookup, hnc']]
    · rw [show removeName (n :: ns) c = n :: removeName ns c by
          simp [removeName, hn],
        show dropCells (n :: ns) (x :: xs) c = x :: dropCells ns xs c by
          simp [dropCells, hn]]
      by_cases hnc : n = c'
      · simp [rowLookup, hnc]
      · simp only [rowLookup, if_neg hnc]
        exact dropCells_rowLookup hne ns xs

theorem mem_removeName {a c : String} : ∀ {ns : List String},
    a ∈ removeName ns c ↔ a ∈ ns ∧ a ≠ c := by
  intro ns
  induction ns with
  | nil => simp [removeName]
  | cons n ns ih =>
    by_cases hn : n = c
    · simp only [removeName, if_pos hn, ih, List.mem_cons]
      constructor
      · rintro ⟨h1, h2⟩
        exact ⟨Or.inr h1, h2⟩
      · rintro ⟨h1 | h1, h2⟩
        · exact absurd (h1.trans hn) h2
        · exact ⟨h1, h2⟩
    · simp only [removeName, if_neg hn, List.mem_cons, ih]
      constructor
      · rintro (rfl | ⟨h1, h2⟩)
        · exact ⟨Or.inl rfl, hn⟩
        · exact ⟨Or.inr h1, h2⟩
      · rintro ⟨rfl | h1, h2⟩
        · exact Or.inl rfl
        · exact Or.inr ⟨h1, h2⟩

theorem dropColumn_ok {df df' : DataFrame} {c : String}
    (h : dropColumn df c = Except.ok df') :
    c ∈ df.cols ∧ df'.cols = removeName df.cols c ∧
    df'.rows = df.rows.map (fun r => dropCells df.cols r c) := by
  unfold dropColumn at h
  split at h
  next hmem => cases h; exact ⟨hmem, rfl, rfl⟩
  next => cases h

theorem dropColumn_error {df : DataFrame} {c : String} (h : c ∉ df.cols) :
    dropColumn df c = Except.error (PyError.keyError c) := by
  unfold dropColumn
  rw [if_neg h]

theorem dropColumn_spec {df df' : DataFrame} {c : String}
    (h : dropColumn df c = Except.ok df') :
    c ∉ df'.cols ∧ df'.rows.length = df.rows.length ∧
    ∀ c', c' ≠ c → ∀ k,
      rowLookup df'.cols (df'.rows.getD k []) c'
        = rowLookup df.cols (df.rows.getD k []) c' := by
  obtain ⟨hmem, hcols, hrows⟩ := dropColumn_ok h
  refine ⟨by rw [hcols]; simp [mem_removeName], by rw [hrows, List.length_map], ?_⟩
  intro c' hne k
  rw [hcols, hrows, map_getD_nil _ (by cases df.cols <;> rfl)]
  exact dropCells_rowLookup hne df.cols _

/-! ### Lemmas about the orchestrator and the serialization -/

theorem process_ok {rl : RecordList} {out : DataFrame}
    (h : process_health_records rl = Except.ok out) :
    ∃ records records2,
      parse_health_data rl = Except.ok records ∧
      clean_record_types records "Quantity" = Except.ok records2 ∧
      dropColumn records2 "device" = Except.ok out := by
  unfold process_health_records at h
  split at h
  · cases h
  next records hp =>
    split at h
    · cases h
    next =>
      split at h
      · cases h
      next =>
        split at h
        · cases h
        next records2 hcl => exact ⟨records, records2, hp, hcl, h⟩

theorem process_error_of_no_device {rl : RecordList}
    {records records2 : DataFrame}
    (hp : parse_health_data rl = Except.ok records)
    (hcl : clean_record_types records "Quantity" = Except.ok records2)
    (hnd : "device" ∉ records2.cols) :
    ∃ e, process_health_records rl = Except.error e := by
  unfold process_health_records
  simp only [hp]
  cases hq : extract_record_types records "Quantity" with
  | error e => exact ⟨e, rfl⟩
  | ok l1 =>
    cases hcat : extract_record_types records "Category" with
    | error e => exact ⟨e, rfl⟩
    | ok l2 =>
      refine ⟨PyError.keyError "device", ?_⟩
      simp only [hcl]
      exact dropColumn_error hnd

theorem csvLines_map_fst : ∀ (rows : List (List Cell)) (i : Nat),
    (csvLines i rows).map Prod.fst = List.range' i rows.length
  | [], i => by simp [csvLines, List.range']
  | r :: rs, i => by
    simp [csvLines, List.range', csvLines_map_fst rs (i + 1)]

/-! ### The category validation -/

theorem invalid_category_errors {records : DataFrame} {t : String}
    (h1 : t ≠ "Quantity") (h2 : t ≠ "Category") :
    extract_record_types records t = Except.error invalidCategoryError ∧
    clean_record_types records t = Except.error invalidCategoryError := by
  have hmem : t ∉ (["Quantity", "Category"] : List String) := by
    simp [h1, h2]
  constructor
  · unfold extract_record_types
    rw [if_neg hmem]
  · unfold clean_record_types
    rw [if_neg hmem]

/-! ### Concrete frames and record lists used by the claims -/

/-- The spec's end-to-end pair: one Quantity record and one Category
record. -/
def samplePair : DataFrame :=
  ⟨["type"], [[Cell.str "HKQuantityTypeIdentifierStepCount"],
              [Cell.str "HKCategoryTypeIdentifierSleepAnalysis"]]⟩

/-- A one-row frame with a single Quantity record. -/
def sampleOne : DataFrame :=
  ⟨["type"], [[Cell.str "HKQuantityTypeIdentifierStepCount"]]⟩

/-- The spec's extraction scenario: StepCount, StepCount, HeartRate. -/
def extractSample : DataFrame :=
  ⟨["type"],
    [[Cell.str "HKQuantityTypeIdentifierStepCount"],
     [Cell.str "HKQuantityTypeIdentifierStepCount"],
     [Cell.str "HKQuantityTypeIdentifierHeartRate"]]⟩

/-- A `type` value containing the identifier twice. -/
def doubledSample : DataFrame :=
  ⟨["type"],
    [[Cell.str "HKQuantityTypeIdentifierHKQuantityTypeIdentifierStepCount"]]⟩

/-- One full record with all standard attributes. -/
def rlOne : RecordList :=
  [[("type", "HKQuantityTypeIdentifierStepCount"),
    ("creationDate", "2023-01-01 10:00:00 +0530"),
    ("startDate", "2023-01-01 10:00:00 +0530"),
    ("endDate", "2023-01-01 11:00:00 +0530"),
    ("device", "iPhone"),
    ("value", "100")]]

/-- The frame `parse_health_data` assembles from `rlOne`. -/
def dfOne : DataFrame :=
  ⟨["type", "creationDate", "startDate", "endDate", "device", "value"],
   [[Cell.str "HKQuantityTypeIdentifierStepCount",
     Cell.dt "2023-01-01 10:00:00 +0530",
     Cell.dt "2023-01-01 10:00:00 +0530",
     Cell.dt "2023-01-01 11:00:00 +0530",
     Cell.str "iPhone", Cell.str "100"]]⟩

/-- The frame the pipeline serializes for `rlOne`. -/
def dfProcessed : DataFrame :=
  ⟨["type", "creationDate", "startDate", "endDate", "value"],
   [[Cell.str "StepCount",
     Cell.dt "2023-01-01 10:00:00 +0530",
     Cell.dt "2023-01-01 10:00:00 +0530",
     Cell.dt "2023-01-01 11:00:00 +0530",
     Cell.str "100"]]⟩

/-- One record lacking the `device` attribute. -/
def rlNoDevice : RecordList :=
  [[("type", "HKQuantityTypeIdentifierStepCount"),
    ("creationDate", "2023-01-01"),
    ("startDate", "2023-01-01"),
    ("endDate", "2023-01-01")]]

/-- The frame `parse_health_data` assembles from `rlNoDevice`. -/
def dfNoDevParsed : DataFrame :=
  ⟨["type", "creationDate", "startDate", "endDate"],
   [[Cell.str "HKQuantityTypeIdentifierStepCount", Cell.dt "2023-01-01",
     Cell.dt "2023-01-01", Cell.dt "2023-01-01"]]⟩

/-- `dfNoDevParsed` after cleaning the Quantity category. -/
def dfNoDevCleaned : DataFrame :=
  ⟨["type", "creationDate", "startDate", "endDate"],
   [[Cell.str "StepCount", Cell.dt "2023-01-01",
     Cell.dt "2023-01-01", Cell.dt "2023-01-01"]]⟩

/-- A two-column frame for the frame-condition witness. -/
def dfTwoCols : DataFrame :=
  ⟨["type", "value"],
   [[Cell.str "HKQuantityTypeIdentifierStepCount", Cell.str "100"]]⟩

/-- `dfTwoCols` after cleaning the Quantity category. -/
def dfTwoColsClean : DataFrame :=
  ⟨["type", "value"], [[Cell.str "StepCount", Cell.str "100"]]⟩

/-! ### The claims -/

/-- Claim C1: the claim states that `clean_record_types` rewrites exactly
the rows whose `type` matches the category and leaves every non-matching
row's `type` unchanged.  The code violates the second half: the
index-aligned full-column assignment `records.loc[:, "type"] =
record_types` fills a missing value (`NaN`) at every row label absent
from the filtered series.  On the spec's own end-to-end pair, the
Category row's `type` becomes missing instead of keeping
`HKCategoryTypeIdentifierSleepAnalysis`. -/
theorem c1_clean_nullifies_nonmatching :
    clean_record_types samplePair "Quantity"
      = Except.ok ⟨["type"], [[Cell.str "StepCount"], [Cell.na]]⟩ ∧
    Cell.na ≠ Cell.str "HKCategoryTypeIdentifierSleepAnalysis" :=
  ⟨rfl, by decide⟩

/-- Claim C2: the claim states that applying `clean_record_types` twice
with the same category is a no-op the second time.  The code violates
this: the second application selects no rows, and assigning the resulting
empty series to the whole `type` column sets every cell of the column to
a missing value (and it raises a masking `ValueError` instead whenever
the first application left missing values in non-matching rows). -/
theorem c2_clean_not_idempotent :
    clean_record_types sampleOne "Quantity"
        = Except.ok ⟨["type"], [[Cell.str "StepCount"]]⟩ ∧
    clean_record_types ⟨["type"], [[Cell.str "StepCount"]]⟩ "Quantity"
        = Except.ok ⟨["type"], [[Cell.na]]⟩ ∧
    (⟨["type"], [[Cell.na]]⟩ : DataFrame) ≠ ⟨["type"], [[Cell.str "StepCount"]]⟩ :=
  ⟨rfl, rfl, by decide⟩

/-- Claim C3 (counterexample): `get_filtered_record_types` performs no
category validation — on the invalid category `"Workout"` it filters with
the literal substring `HKWorkoutTypeIdentifier` and returns an ordinary
(empty) result instead of failing with `InvalidArgument`. -/
theorem c3_filter_no_validation :
    get_filtered_record_types sampleOne "Workout" = Except.ok [] := rfl

/-- Claim C3 (amended): for every category value other than the exact
strings `"Quantity"` and `"Category"`, `extract_record_types` and
`clean_record_types` fail with the `InvalidArgument` `ValueError` before
touching any data; `get_filtered_record_types` performs no validation. -/
theorem c3_invalid_category (records : DataFrame) (t : String)
    (h1 : t ≠ "Quantity") (h2 : t ≠ "Category") :
    extract_record_types records t = Except.error invalidCategoryError ∧
    clean_record_types records t = Except.error invalidCategoryError :=
  invalid_category_errors h1 h2

theorem c3_invalid_category_witness :
    extract_record_types sampleOne "Workout" = Except.error invalidCategoryError ∧
    clean_record_types sampleOne "Workout" = Except.error invalidCategoryError :=
  c3_invalid_category sampleOne "Workout" (by decide) (by decide)

/-- Claim C4 (counterexample): on a well-formed document with zero
`Record` elements the assembled frame has no columns, so selecting the
three date columns raises `KeyError` — `parse_health_data` fails instead
of returning a table with 0 rows. -/
theorem c4_empty_parse_fails :
    parse_health_data []
      = Except.error (PyError.keyError "date columns missing") := rfl

/-- Claim C4 (amended): whenever `parse_health_data` returns a table, it
has exactly one row per `Record` element, in document order (row `k`
carries record `k`'s attribute values in every non-date column), with one
column per observed attribute name; for `N = 0` (or whenever a date
column is entirely absent) the parse fails instead. -/
theorem c4_parse_row_count (rl : RecordList) (df : DataFrame)
    (h : parse_health_data rl = Except.ok df) :
    df.rows.length = rl.length ∧ df.cols = unionKeys rl ∧
    ∀ k, k < rl.length → ∀ c, c ∈ unionKeys rl → c ∉ dateColsList →
      rowLookup df.cols (df.rows.getD k []) c
        = some (cellOfRecord (rl.getD k []) c) := by
  obtain ⟨hcols, hlen, hpass, _⟩ := parse_ok_spec h
  exact ⟨hlen, hcols, hpass⟩

theorem c4_parse_row_count_witness :
    parse_health_data rlOne = Except.ok dfOne ∧ dfOne.rows.length = 1 :=
  ⟨rfl, (c4_parse_row_count rlOne dfOne rfl).1⟩

/-- Claim C5 (counterexample): a document whose records carry no date
attribute at all has no unparseable date value, yet `parse_health_data`
returns no table — selecting the absent date columns raises `KeyError`. -/
theorem c5_missing_date_cols :
    (∀ r ∈ [[("type", "X")]], ∀ kv ∈ r, (kv : String × String).1 ∉ dateColsList) ∧
    parse_health_data [[("type", "X")]]
      = Except.error (PyError.keyError "date columns missing") :=
  ⟨by decide, rfl⟩

/-- Claim C5 (amended): when the three date columns are present among the
observed attributes, `parse_health_data` succeeds exactly when every date
value converts (fail-fast, no partial result on an unparseable value),
and every returned table holds datetime values in the three date columns
while all other columns keep their original string values. -/
theorem c5_date_conversion (rl : RecordList)
    (hc : "creationDate" ∈ unionKeys rl) (hs : "startDate" ∈ unionKeys rl)
    (he : "endDate" ∈ unionKeys rl) :
    ((∃ df, parse_health_data rl = Except.ok df) ↔ allDatesParse rl = true) ∧
    (∀ df, parse_health_data rl = Except.ok df →
      (∀ k, k < rl.length → ∀ c, c ∈ dateColsList →
        ∃ cell, rowLookup df.cols (df.rows.getD k []) c = some cell ∧
          datetimeLike cell = true) ∧
      (∀ k, k < rl.length → ∀ c, c ∈ unionKeys rl → c ∉ dateColsList →
        rowLookup df.cols (df.rows.getD k []) c
          = some (cellOfRecord (rl.getD k []) c))) := by
  refine ⟨⟨fun h => ?_, fun hall => parse_ok_of_allDatesParse hc hs he hall⟩,
    fun df h => ?_⟩
  · obtain ⟨df, h⟩ := h
    exact parse_ok_allDatesParse h
  · obtain ⟨_, _, hpass, hdt⟩ := parse_ok_spec h
    exact ⟨hdt, hpass⟩

theorem c5_date_conversion_witness :
    ∃ df, parse_health_data rlOne = Except.ok df :=
  (c5_date_conversion rlOne (by decide) (by decide) (by decide)).1.mpr (by rfl)

/-- Claim C6 (counterexample): the claim says the matched values are
returned with the literal prefix stripped; the code instead removes
every occurrence of the identifier substring anywhere in the value
(`Series.str.replace`).  On a value containing the identifier twice,
prefix-stripping would leave `HKQuantityTypeIdentifierStepCount`, but the
code returns `StepCount`. -/
theorem c6_removes_every_occurrence :
    extract_record_types doubledSample "Quantity" = Except.ok ["StepCount"] ∧
    stripFrontSpec "HKQuantityTypeIdentifier"
        "HKQuantityTypeIdentifierHKQuantityTypeIdentifierStepCount"
      = "HKQuantityTypeIdentifierStepCount" ∧
    ("StepCount" : String) ≠ "HKQuantityTypeIdentifierStepCount" :=
  ⟨rfl, rfl, by decide⟩

/-- Claim C6 (amended): on a string-valued `type` column,
`extract_record_types` returns — in the table's row order, without
deduplication — the matched values with every occurrence of the literal
substring `HK<category>TypeIdentifier` removed (which coincides with
prefix-stripping whenever the identifier occurs exactly once, as a
prefix). -/
theorem c6_extract_row_order (records : DataFrame) (t : String) (j : Nat)
    (vals : List String) (ht : t = "Quantity" ∨ t = "Category")
    (hj : idxOf? "type" records.cols = some j)
    (hvals : records.rows.map (fun r => r.getD j Cell.na) = vals.map Cell.str) :
    extract_record_types records t =
      Except.ok ((vals.filter (fun s =>
          containsSub s ("HK" ++ t ++ "TypeIdentifier"))).map
        (fun s => replaceAll s ("HK" ++ t ++ "TypeIdentifier") "")) := by
  have hmem : t ∈ (["Quantity", "Category"] : List String) := by
    rcases ht with rfl | rfl <;> simp
  unfold extract_record_types
  rw [if_pos hmem, get_filtered_ok_of_strings records t j vals hj hvals]
  show Except.ok ((matchedPairs ("HK" ++ t ++ "TypeIdentifier") 0 vals).map
    (fun p => replaceAll p.2 ("HK" ++ t ++ "TypeIdentifier") "")) = _
  congr 1
  rw [← matchedPairs_map_snd ("HK" ++ t ++ "TypeIdentifier") 0 vals,
    List.map_map]
  rfl

theorem c6_extract_row_order_witness :
    extract_record_types extractSample "Quantity"
      = Except.ok ["StepCount", "StepCount", "HeartRate"] :=
  c6_extract_row_order extractSample "Quantity" 0
    ["HKQuantityTypeIdentifierStepCount", "HKQuantityTypeIdentifierStepCount",
      "HKQuantityTypeIdentifierHeartRate"] (Or.inl rfl) rfl rfl

/-- Claim C7: on a string-valued `type` column,
`get_filtered_record_types` returns exactly the `(row index, value)`
pairs whose value contains the literal substring
`HK<category>TypeIdentifier`, in the table's row order, values
unmodified; mapping the result to its values is precisely the row-order
filter of the column (no duplication, no omission), and the function
never mutates its input. -/
theorem c7_filter_exact (records : DataFrame) (t : String) (j : Nat)
    (vals : List String) (ht : t = "Quantity" ∨ t = "Category")
    (hj : idxOf? "type" records.cols = some j)
    (hvals : records.rows.map (fun r => r.getD j Cell.na) = vals.map Cell.str) :
    get_filtered_record_types records t =
      Except.ok (matchedPairs ("HK" ++ t ++ "TypeIdentifier") 0 vals) ∧
    (matchedPairs ("HK" ++ t ++ "TypeIdentifier") 0 vals).map Prod.snd
      = vals.filter (fun s => containsSub s ("HK" ++ t ++ "TypeIdentifier")) :=
  ⟨get_filtered_ok_of_strings records t j vals hj hvals,
   matchedPairs_map_snd _ 0 vals⟩

theorem c7_filter_exact_witness :
    get_filtered_record_types samplePair "Quantity"
      = Except.ok [(0, "HKQuantityTypeIdentifierStepCount")] ∧
    ([((0 : Nat), "HKQuantityTypeIdentifierStepCount")]).map Prod.snd
      = (["HKQuantityTypeIdentifierStepCount",
          "HKCategoryTypeIdentifierSleepAnalysis"]).filter
          (fun s => containsSub s "HKQuantityTypeIdentifier") :=
  c7_filter_exact samplePair "Quantity" 0
    ["HKQuantityTypeIdentifierStepCount", "HKCategoryTypeIdentifierSleepAnalysis"]
    (Or.inl rfl) rfl rfl

/-- Claim C8: dropping the `device` column fails with the `SchemaError`
`KeyError` whenever the column is absent — and then the pipeline produces
no output — and removes exactly that column (same rows, all other
columns' cells untouched) whenever it is present. -/
theorem c8_drop_device :
    (∀ df : DataFrame, "device" ∉ df.cols →
      dropColumn df "device" = Except.error (PyError.keyError "device")) ∧
    (∀ df df' : DataFrame, dropColumn df "device" = Except.ok df' →
      "device" ∉ df'.cols ∧ df'.rows.length = df.rows.length ∧
      ∀ c, c ≠ "device" → ∀ k,
        rowLookup df'.cols (df'.rows.getD k []) c
          = rowLookup df.cols (df.rows.getD k []) c) ∧
    (∀ (rl : RecordList) (records records2 : DataFrame),
      parse_health_data rl = Except.ok records →
      clean_record_types records "Quantity" = Except.ok records2 →
      "device" ∉ records2.cols →
      ∃ e, process_health_records rl = Except.error e) :=
  ⟨fun _ h => dropColumn_error h, fun _ _ h => dropColumn_spec h,
   fun _ _ _ hp hcl hnd => process_error_of_no_device hp hcl hnd⟩

theorem c8_drop_device_witness :
    dropColumn ⟨["type"], [[Cell.str "x"]]⟩ "device"
        = Except.error (PyError.keyError "device") ∧
    (∃ e, process_health_records rlNoDevice = Except.error e) :=
  ⟨c8_drop_device.1 ⟨["type"], [[Cell.str "x"]]⟩ (by decide),
   c8_drop_device.2.2 rlNoDevice dfNoDevParsed dfNoDevCleaned rfl rfl
     (by decide)⟩

/-- Claim C9: every successful pipeline run serializes a table with one
row per input record in original order (row `k` still carries record
`k`'s values in the untouched columns), one column per observed attribute
except the dropped `device` column, and a leading integer row-index
column `0..N-1`. -/
theorem c9_output_shape (rl : RecordList) (out : DataFrame)
    (h : process_health_records rl = Except.ok out) :
    out.rows.length = rl.length ∧
    "device" ∈ unionKeys rl ∧
    "device" ∉ out.cols ∧
    out.cols = removeName (unionKeys rl) "device" ∧
    (to_csv out).header = out.cols ∧
    (to_csv out).lines.map Prod.fst = List.range rl.length ∧
    ∀ k, k < rl.length → ∀ c, c ∈ unionKeys rl → c ∉ dateColsList →
      c ≠ "type" → c ≠ "device" →
      rowLookup out.cols (out.rows.getD k []) c
        = some (cellOfRecord (rl.getD k []) c) := by
  obtain ⟨records, records2, hp, hcl, hdrop⟩ := process_ok h
  obtain ⟨pcols, plen, ppass, _⟩ := parse_ok_spec hp
  obtain ⟨ccols, clen, cpass⟩ := clean_ok_spec hcl
  obtain ⟨dmem, dcols, drows⟩ := dropColumn_ok hdrop
  obtain ⟨dnot, dlen, dpass⟩ := dropColumn_spec hdrop
  have hlen : out.rows.length = rl.length := by rw [dlen, clen, plen]
  refine ⟨hlen, ?_, dnot, ?_, rfl, ?_, ?_⟩
  · rw [ccols, pcols] at dmem
    exact dmem
  · rw [dcols, ccols, pcols]
  · show (csvLines 0 out.rows).map Prod.fst = List.range rl.length
    rw [csvLines_map_fst, hlen]
    exact (List.range_eq_range' _).symm
  · intro k hk c hmem hnd hnt hndev
    rw [dpass c hndev k, cpass c hnt k, ppass k hk c hmem hnd]

theorem c9_output_shape_witness :
    process_health_records rlOne = Except.ok dfProcessed ∧
    dfProcessed.rows.length = 1 ∧ "device" ∉ dfProcessed.cols :=
  ⟨rfl, (c9_output_shape rlOne dfProcessed rfl).1,
    (c9_output_shape rlOne dfProcessed rfl).2.2.1⟩

/-- Claim C10: a successful `clean_record_types` preserves the table's
columns, its row count and row order, and the cells of every column
other than `type`. -/
theorem c10_clean_frame (records df' : DataFrame) (t : String)
    (ht : t = "Quantity" ∨ t = "Category")
    (h : clean_record_types records t = Except.ok df') :
    df'.cols = records.cols ∧ df'.rows.length = records.rows.length ∧
    ∀ c, c ≠ "type" → ∀ k,
      rowLookup df'.cols (df'.rows.getD k []) c
        = rowLookup records.cols (records.rows.getD k []) c :=
  clean_ok_spec h

theorem c10_clean_frame_witness :
    clean_record_types dfTwoCols "Quantity" = Except.ok dfTwoColsClean ∧
    dfTwoColsClean.cols = dfTwoCols.cols ∧
    rowLookup dfTwoColsClean.cols (dfTwoColsClean.rows.getD 0 []) "value"
      = rowLookup dfTwoCols.cols (dfTwoCols.rows.getD 0 []) "value" :=
  ⟨rfl,
   (c10_clean_frame dfTwoCols dfTwoColsClean "Quantity" (Or.inl rfl) rfl).1,
   (c10_clean_frame dfTwoCols dfTwoColsClean "Quantity" (Or.inl rfl) rfl).2.2
     "value" (by decide) 0⟩

end PyHealthKit
